import Mathlib

/-!
Verification of the EcoFinds marketplace backends (src/BACKEND/server.js).

That file contains two backend skeletons: an Express/MySQL server (the JavaScript
half) and a Flask/PostgreSQL server (the Python half).  This development embeds
the authentication, ownership and CRUD logic of both halves as executable Lean
definitions and proves the frozen claims about them.

Modelling conventions:
* bcrypt (bcryptjs / passlib) is modelled by a deterministic tagged encoding;
  salting is irrelevant to every claim, only the contract
  `verify p (hash q) = true iff p = q` and the tagged output format matter.
* A JSON Web Token is modelled by an inductive: either a well-formed signed
  token carrying its payload and the key it was signed with, or a malformed
  string.  Verification checks the key and the `exp` claim against the clock.
* The `Authorization` header is modelled by its space-split words: the scheme
  word `words[0]` and the credential `words[1]` (absent when there is no second
  word).  Both middlewares only ever split the header on spaces and read these
  two positions, so no behaviour is lost.
* SQL tables are lists of rows; `WHERE` clauses become filters; row counts
  become lengths.  The clock is a natural number of seconds.
-/

namespace EcoFinds

/-- JSON error body `{error: message}` used by every error response. -/
structure ErrBody where
  error : String
deriving DecidableEq

/-- Model of bcrypt hashing (`bcryptjs.hash(p, 10)` / `passlib bcrypt.hash`):
a tagged one-way encoding.  Salting is omitted because no claim depends on it;
the model keeps the real output shape (a `$2b$`-tagged string, never the bare
plaintext) and the functional contract of `verify`. -/
def bcryptHash (plain : String) : String := "$2b$10$" ++ plain

/-- Model of `bcrypt.compare` (bcryptjs) / `bcrypt.verify` (passlib): total,
returns a Bool and never throws. -/
def bcryptVerify (plain stored : String) : Bool := stored == bcryptHash plain

/-- Truthiness of an optional request field, as JavaScript `!x` / Python
`not x` see it: absent and empty-string are falsy. -/
def truthy : Option String → Bool
  | none => false
  | some s => s != ""

/-- Payload signed by the Express login handler: `{ id, email }` plus the
`exp` claim added by `expiresIn: "1h"`. -/
structure ExpPayload where
  id : Nat
  email : String
  exp : Nat
deriving DecidableEq

/-- An Express-side JWT: either well formed (payload plus signing key) or an
undecodable string. -/
inductive ExpJwt where
  | signed (payload : ExpPayload) (key : String)
  | malformed (raw : String)
deriving DecidableEq

/-- The AuthError taxonomy of the spec: Missing, Malformed, BadSignature,
Expired. -/
inductive AuthErr where
  | missing
  | malformed
  | badSignature
  | expired
deriving DecidableEq

/-- Model of `jwt.verify(token, secret)` (jsonwebtoken) at clock `now`:
malformed tokens and key mismatches throw, and the token is expired exactly
when `now` has reached the `exp` claim. -/
def expVerify (t : ExpJwt) (secret : String) (now : Nat) : Except AuthErr ExpPayload :=
  match t with
  | .malformed _ => .error .malformed
  | .signed p key =>
    if key ≠ secret then .error .badSignature
    else if p.exp ≤ now then .error .expired
    else .ok p

/-- Model of `jwt.sign({id, email}, secret, { expiresIn: "1h" })` at clock
`now`: the `exp` claim is one hour (3600 s) ahead. -/
def expSign (uid : Nat) (email : String) (now : Nat) (secret : String) : ExpJwt :=
  .signed ⟨uid, email, now + 3600⟩ secret

/-- Payload signed by the Flask login route: `{"uid": ..., "exp": ...}`. -/
structure FlPayload where
  uid : Nat
  exp : Nat
deriving DecidableEq

/-- A Flask-side JWT: well formed or undecodable. -/
inductive FlJwt where
  | signed (payload : FlPayload) (key : String)
  | malformed (raw : String)
deriving DecidableEq

/-- Model of `jwt.decode(token, secret, algorithms=["HS256"])` (PyJWT) at
clock `now`.  Every failure is a subclass of `InvalidTokenError`; expiry
triggers exactly when `now` has reached the `exp` claim. -/
def flVerify (t : FlJwt) (secret : String) (now : Nat) : Except AuthErr FlPayload :=
  match t with
  | .malformed _ => .error .malformed
  | .signed p key =>
    if key ≠ secret then .error .badSignature
    else if p.exp ≤ now then .error .expired
    else .ok p

/-- Model of the token built by the Flask login route:
`jwt.encode({"uid": uid, "exp": utcnow() + timedelta(hours=8)}, secret)`. -/
def flSign (uid now : Nat) (secret : String) : FlJwt :=
  .signed ⟨uid, now + 28800⟩ secret

/-- An `Authorization` header value, modelled by its space-split words:
`scheme` is `words[0]` and `cred` is `words[1]` (none when absent). -/
structure BearerHeader (τ : Type) where
  scheme : String
  cred : Option τ
deriving DecidableEq

/-- Express request header: absent, or a header value. -/
abbrev ExpHeader := Option (BearerHeader ExpJwt)

/-- Flask request header: absent, or a header value. -/
abbrev FlHeader := Option (BearerHeader FlJwt)

/-- `req.headers.authorization?.split(" ")[1]` — the Express middleware reads
only the second word and ignores the scheme word entirely. -/
def expExtractToken (h : ExpHeader) : Option ExpJwt := h.bind (·.cred)

/-- Result of running the Express `authMiddleware`: short-circuit with a 401
body, or proceed into the wrapped handler with `req.user` set. -/
inductive MwResult (α : Type) where
  | unauthorized (body : ErrBody)
  | proceed (user : α)
deriving DecidableEq

/-- The Express program refers to the identifier `JWT_SECRET` at its
`jwt.verify` and `jwt.sign` call sites, but no binding for that identifier
exists anywhere in the JavaScript program (the only `JWT_SECRET` definition in
the repository is in the Python half).  Evaluating the identifier therefore
throws a `ReferenceError`; the binding is modelled as absent. -/
def expressSecretBinding : Option String := none

/-- Uncaught JavaScript exception escaping a handler. -/
inductive JsError where
  | referenceError (ident : String)
deriving DecidableEq

/-- Outcome of a JavaScript handler: an HTTP response, or an uncaught throw. -/
inductive JsOutcome (α : Type) where
  | resp (r : α)
  | thrown (e : JsError)
deriving DecidableEq

/-- Express `authMiddleware` (server.js lines 79-91), parameterised by the
environment binding of `JWT_SECRET`.  A missing second header word gives the
"no token" 401; inside the `try` block, evaluating an unbound `JWT_SECRET`
throws a ReferenceError which the `catch` converts to the "invalid token" 401,
as it does every `jwt.verify` failure. -/
def authMiddleware (secretBinding : Option String) (h : ExpHeader) (now : Nat) :
    MwResult ExpPayload :=
  match expExtractToken h with
  | none => .unauthorized ⟨"Authentication failed: No token provided."⟩
  | some tok =>
    match secretBinding with
    | none => .unauthorized ⟨"Authentication failed: Invalid token."⟩
    | some secret =>
      match expVerify tok secret now with
      | .error _ => .unauthorized ⟨"Authentication failed: Invalid token."⟩
      | .ok p => .proceed p

/-- An Express route wrapped by `authMiddleware`: the handler runs only when
the middleware calls `next()`. -/
def expRoute {R : Type} (secretBinding : Option String) (h : ExpHeader) (now : Nat)
    (handler : ExpPayload → R) : Sum (Nat × ErrBody) R :=
  match authMiddleware secretBinding h now with
  | .unauthorized b => .inl (401, b)
  | .proceed p => .inr (handler p)

/-- Flask `require_auth` decorator (server.js lines 273-286): the header must
start with `"Bearer "`, the second word is decoded with PyJWT, and the
`uid` claim becomes `request.user_id`. -/
def require_auth (secret : String) (h : FlHeader) (now : Nat) :
    Except (Nat × ErrBody) Nat :=
  match h with
  | none => .error (401, ⟨"Missing token"⟩)
  | some hdr =>
    if hdr.scheme ≠ "Bearer" then .error (401, ⟨"Missing token"⟩)
    else
      match hdr.cred with
      | none => .error (401, ⟨"Missing token"⟩)
      | some tok =>
        match flVerify tok secret now with
        | .error _ => .error (401, ⟨"Invalid token"⟩)
        | .ok p => .ok p.uid

/-- A Flask view wrapped by `@require_auth`. -/
def flRoute {R : Type} (secret : String) (h : FlHeader) (now : Nat)
    (handler : Nat → R) : Sum (Nat × ErrBody) R :=
  match require_auth secret h now with
  | .error e => .inl e
  | .ok uid => .inr (handler uid)

/-! ### Express backend state and handlers (the JavaScript half) -/

/-- A row of the Express `users` table (column names from `CREATE TABLE`):
`password` stores the bcrypt hash. -/
structure EUser where
  id : Nat
  email : String
  password : String
  username : String
  member_since : String
deriving DecidableEq

/-- A row of the Express `products` table. -/
structure EProduct where
  id : Nat
  title : String
  description : String
  category : String
  price : Nat
  image_url : String
  user_id : Nat
deriving DecidableEq

/-- Express datastore state: the `users` table plus its AUTO_INCREMENT
counter. -/
structure EState where
  users : List EUser
  nextUserId : Nat
deriving DecidableEq

/-- `SELECT * FROM users WHERE email = ?` followed by `results[0]` (the email
column is UNIQUE, so the first match is the only one). -/
def findByEmail (us : List EUser) (e : String) : Option EUser :=
  us.find? (·.email == e)

/-- Response of `POST /api/register`. -/
inductive RegResp where
  | badRequest (body : ErrBody)
  | conflict (body : ErrBody)
  | created (message : String)
deriving DecidableEq

/-- HTTP status carried by each `RegResp` constructor. -/
def regStatus : RegResp → Nat
  | .badRequest _ => 400
  | .conflict _ => 409
  | .created _ => 201

/-- Express `POST /api/register` handler (server.js lines 94-119): falsy
email/password/username give 400; inserting a duplicate email violates the
UNIQUE constraint (`ER_DUP_ENTRY`) giving 409; otherwise the user row is
inserted with the bcrypt hash and 201 is returned. -/
def expressRegister (st : EState) (email password username : Option String) :
    EState × RegResp :=
  if truthy email && truthy password && truthy username then
    let e := email.getD ""
    let p := password.getD ""
    let u := username.getD ""
    if (findByEmail st.users e).isSome then
      (st, .conflict ⟨"Email already registered."⟩)
    else
      ({ users := st.users ++ [⟨st.nextUserId, e, bcryptHash p, u, ""⟩],
         nextUserId := st.nextUserId + 1 },
       .created "Registration successful!")
  else (st, .badRequest ⟨"Username, email, and password are required."⟩)

/-- Response of `POST /api/login`. -/
inductive LoginResp where
  | badRequest (body : ErrBody)
  | unauthorized (body : ErrBody)
  | success (message : String) (token : ExpJwt)
deriving DecidableEq

/-- Express `POST /api/login` handler (server.js lines 121-149), parameterised
by the environment binding of `JWT_SECRET`.  On correct credentials the
handler evaluates `JWT_SECRET` outside any `try` block, so an unbound
identifier throws an uncaught ReferenceError instead of responding. -/
def expressLogin (secretBinding : Option String) (st : EState)
    (email password : Option String) (now : Nat) : JsOutcome LoginResp :=
  if truthy email && truthy password then
    match findByEmail st.users (email.getD "") with
    | none => .resp (.unauthorized ⟨"Invalid credentials."⟩)
    | some u =>
      if bcryptVerify (password.getD "") u.password then
        match secretBinding with
        | none => .thrown (.referenceError "JWT_SECRET")
        | some secret =>
          .resp (.success "Login successful!" (expSign u.id u.email now secret))
      else .resp (.unauthorized ⟨"Invalid credentials."⟩)
  else .resp (.badRequest ⟨"Email and password are required."⟩)

/-- Character-list helper: does the second list start with the first? -/
def startsWithChars : List Char → List Char → Bool
  | [], _ => true
  | _ :: _, [] => false
  | a :: as, b :: bs => a == b && startsWithChars as bs

/-- Character-list helper: does the second list contain the first
contiguously? -/
def hasSubstrChars (pat : List Char) : List Char → Bool
  | [] => startsWithChars pat []
  | s :: rest => startsWithChars pat (s :: rest) || hasSubstrChars pat rest

/-- Model of SQL `title LIKE CONCAT(CHAR(37), ?, CHAR(37))`: substring
containment (collation case folding is immaterial to the claims). -/
def likeContains (hay pat : String) : Bool :=
  hasSubstrChars pat.toList hay.toList

/-- Express `GET /api/products` handler body (server.js lines 152-172):
`if (user_id)` then filter by owner, `else if (q)` then filter by title,
else return every row.  JavaScript truthiness makes an empty-string query
parameter fall through to the next branch.  MySQL coerces the string
parameter for the INT `user_id` column; the model compares its decimal
rendering. -/
def getProductsQuery (ps : List EProduct) (user_id q : Option String) :
    List EProduct :=
  if truthy user_id then ps.filter (fun p => toString p.user_id == user_id.getD "")
  else if truthy q then ps.filter (fun p => likeContains p.title (q.getD ""))
  else ps

/-- The `user` JSON object built from `SELECT * FROM users WHERE id = ?`:
all five columns, as key/value pairs in column order. -/
def expUserRowFields (u : EUser) : List (String × String) :=
  [("id", toString u.id), ("email", u.email), ("password", u.password),
   ("username", u.username), ("member_since", u.member_since)]

/-- Response of `GET /api/users/:userId`. -/
inductive GetUserResp where
  | forbidden (body : ErrBody)
  | notFound (body : ErrBody)
  | ok (fields : List (String × String))
deriving DecidableEq

/-- Express `GET /api/users/:userId` handler (server.js lines 196-218):
a caller id differing from the path parameter gives 403; otherwise the user
row is fetched and `delete user.password` strips the hash before
`res.json(user)`. -/
def expressGetUser (st : EState) (callerId : Nat) (userIdParam : String) :
    GetUserResp :=
  if toString callerId ≠ userIdParam then
    .forbidden ⟨"Forbidden: You can only access your own data."⟩
  else
    match st.users.find? (fun u => toString u.id == userIdParam) with
    | none => .notFound ⟨"User not found."⟩
    | some u => .ok ((expUserRowFields u).filter (fun kv => kv.1 ≠ "password"))

/-! ### Flask backend state and handlers (the Python half) -/

/-- A row of the Flask `users` table; `password_hash` stores the bcrypt hash,
`username` may be NULL. -/
structure FUser where
  id : Nat
  email : String
  username : Option String
  password_hash : String
deriving DecidableEq

/-- A row of the Flask `products` table. -/
structure FProduct where
  id : Nat
  title : String
  description : Option String
  category : String
  price : Nat
  image_url : Option String
  owner_id : Nat
deriving DecidableEq

/-- A row of the Flask `cart_items` table. -/
structure FCartItem where
  id : Nat
  user_id : Nat
  product_id : Nat
  quantity : Nat
deriving DecidableEq

/-- A row of the Flask `orders` table. -/
structure FOrder where
  id : Nat
  user_id : Nat
  product_id : Nat
  purchased_at : Nat
deriving DecidableEq

/-- Flask datastore state: the four tables plus serial-id counters. -/
structure FState where
  users : List FUser
  products : List FProduct
  cart_items : List FCartItem
  orders : List FOrder
  nextUserId : Nat
  nextOrderId : Nat
deriving DecidableEq

/-- Response of `POST /api/auth/signup`: Flask returns the dict without an
explicit status, so success is HTTP 200; both missing fields and psycopg2
errors (e.g. the UNIQUE-email violation) are 400. -/
inductive FSignupResp where
  | badRequest (body : ErrBody)
  | ok (message : String) (id : Nat)
deriving DecidableEq

/-- HTTP status carried by each `FSignupResp` constructor. -/
def fSignupStatus : FSignupResp → Nat
  | .badRequest _ => 400
  | .ok _ _ => 200

/-- Flask `signup` route (server.js lines 289-302): `data.get` gives None for
an absent key and `not` treats None and `""` alike; a duplicate email raises
`psycopg2.Error` (the spec-level UNIQUE constraint on email), caught and
returned as 400; otherwise the row is inserted and `{"message", "id"}` is
returned with the default 200 status. -/
def flaskSignup (st : FState) (email password username : Option String) :
    FState × FSignupResp :=
  if truthy email && truthy password then
    let e := email.getD ""
    let p := password.getD ""
    if (st.users.find? (·.email == e)).isSome then
      (st, .badRequest ⟨"duplicate key value violates unique constraint"⟩)
    else
      ({ st with
          users := st.users ++ [⟨st.nextUserId, e, username, bcryptHash p⟩],
          nextUserId := st.nextUserId + 1 },
       .ok "User created" st.nextUserId)
  else (st, .badRequest ⟨"Email and password required"⟩)

/-- The `user` object serialised by the Flask login route. -/
structure FUserPublic where
  id : Nat
  email : String
  username : Option String
deriving DecidableEq

/-- Response of `POST /api/auth/login`. -/
inductive FLoginResp where
  | unauthorized (body : ErrBody)
  | ok (token : FlJwt) (user : FUserPublic)
deriving DecidableEq

/-- Flask `login` route (server.js lines 304-314): user looked up by email,
password checked with `bcrypt.verify`; both no-row and failed verification
produce the same 401 body, and success signs an 8-hour token for the row id. -/
def flaskLogin (secret : String) (st : FState) (email password : String)
    (now : Nat) : FLoginResp :=
  match st.users.find? (·.email == email) with
  | none => .unauthorized ⟨"Invalid credentials"⟩
  | some u =>
    if bcryptVerify password u.password_hash then
      .ok (flSign u.id now secret) ⟨u.id, email, u.username⟩
    else .unauthorized ⟨"Invalid credentials"⟩

/-- Flask `me` route body: `SELECT id, email, username FROM users WHERE id=%s`
serialised as `{"id", "email", "username"}`. -/
def flaskMe (st : FState) (uid : Nat) : Option FUserPublic :=
  (st.users.find? (·.id == uid)).map (fun u => ⟨u.id, u.email, u.username⟩)

/-- Request body of the Flask product update route. -/
structure PData where
  title : String
  description : Option String
  category : String
  price : Nat
  image_url : Option String
deriving DecidableEq

/-- The SET clause of the Flask `UPDATE products` statement applied to a row. -/
def applyUpdate (d : PData) (p : FProduct) : FProduct :=
  { p with title := d.title, description := d.description,
           category := d.category, price := d.price, image_url := d.image_url }

/-- The row condition `id=%s AND owner_id=%s` shared by the Flask update and
delete statements. -/
def matchesOwn (pid uid : Nat) (p : FProduct) : Bool :=
  p.id == pid && p.owner_id == uid

/-- Response of `PUT /api/products/<pid>`. -/
inductive FUpdResp where
  | notFound (body : ErrBody)
  | ok (message : String)
deriving DecidableEq

/-- Flask `update_product` route (server.js lines 366-375): the UPDATE hits
the rows matching `id AND owner_id`; `rowcount == 0` yields 404 `Not found`. -/
def update_product (st : FState) (uid pid : Nat) (d : PData) :
    FState × FUpdResp :=
  if (st.products.filter (matchesOwn pid uid)).length = 0 then
    (st, .notFound ⟨"Not found"⟩)
  else
    ({ st with products :=
        st.products.map (fun p => if matchesOwn pid uid p then applyUpdate d p else p) },
     .ok "Updated")

/-- Flask `delete_product` route (server.js lines 377-383): the DELETE hits
the rows matching `id AND owner_id` and the route answers `Deleted` (200)
whatever the row count. -/
def delete_product (st : FState) (uid pid : Nat) : FState × FUpdResp :=
  ({ st with products := st.products.filter (fun p => !(matchesOwn pid uid p)) },
   .ok "Deleted")

/-- Serial order-id assignment performed by
`INSERT INTO orders ... SELECT user_id, product_id, NOW() FROM cart_items`. -/
def ordersFrom (base now : Nat) : List FCartItem → List FOrder
  | [] => []
  | c :: cs => ⟨base, c.user_id, c.product_id, now⟩ :: ordersFrom (base + 1) now cs

/-- Point at which the datastore raises inside the checkout transaction. -/
inductive TxFail where
  | atInsertOrders
  | atDeleteCart
deriving DecidableEq

/-- Response of `POST /api/checkout`. -/
inductive CkResp where
  | serverError
  | ok (message : String)
deriving DecidableEq

/-- Flask `checkout` route (server.js lines 421-428): both statements run
inside the `with get_db() as conn` block, whose psycopg2 exit handler commits
on success and rolls back on an exception, so a failure at either statement
leaves the datastore untouched and surfaces as a 500. -/
def checkout (st : FState) (uid now : Nat) (fail : Option TxFail) :
    FState × CkResp :=
  match fail with
  | some _ => (st, .serverError)
  | none =>
    let items := st.cart_items.filter (·.user_id == uid)
    ({ st with
        orders := st.orders ++ ordersFrom st.nextOrderId now items,
        cart_items := st.cart_items.filter (fun c => !(c.user_id == uid)),
        nextOrderId := st.nextOrderId + items.length },
     .ok "Order placed")

/-- Rows of the selected user in the `cart_items` table. -/
def cartCount (st : FState) (uid : Nat) : Nat :=
  (st.cart_items.filter (·.user_id == uid)).length

/-- Rows of the selected user in the `orders` table. -/
def orderCount (st : FState) (uid : Nat) : Nat :=
  (st.orders.filter (·.user_id == uid)).length

/-! ### Response body key sets (for the serialization claims)

Each list below is the flattened set of JSON keys of one response body, read
off the corresponding `res.json`/`jsonify`/dict construction in the source.
Nested objects contribute their own keys. -/

/-- All fixed response-body key sets of both backends: Express register,
login, products rows (`SELECT *`), product create, user update; Flask signup,
login (with nested `user`), me, update_me (with nested `user`), products
items, my_listings items, cart items, orders items, cart add/remove, product
update/delete, checkout, and the shared `{error}` body. -/
def staticResponseKeys : List (List String) :=
  [ ["message"],
    ["message", "token"],
    ["id", "title", "description", "category", "price", "image_url", "user_id"],
    ["message", "id"],
    ["token", "user", "id", "email", "username"],
    ["id", "email", "username"],
    ["user", "id", "email", "username"],
    ["items", "id", "title", "description", "category", "price", "image_url", "owner_id"],
    ["items", "id", "title", "price", "category", "image_url"],
    ["items", "id", "title", "price", "image_url"],
    ["items", "id", "title", "price", "image_url", "purchased_at"],
    ["error"] ]

/-! ### Shared lemmas -/

/-- `require_auth` either accepts with a uid or short-circuits with a 401. -/
theorem require_auth_cases (secret : String) (h : FlHeader) (now : Nat) :
    (∃ uid, require_auth secret h now = .ok uid) ∨
    (∃ body, require_auth secret h now = .error (401, body)) := by
  cases h with
  | none => exact .inr ⟨_, rfl⟩
  | some hdr =>
    by_cases hs : hdr.scheme = "Bearer"
    · rcases hc : hdr.cred with _ | tok
      · refine .inr ⟨⟨"Missing token"⟩, ?_⟩
        simp [require_auth, hs, hc]
      · rcases hv : flVerify tok secret now with e | p
        · refine .inr ⟨⟨"Invalid token"⟩, ?_⟩
          simp [require_auth, hs, hc, hv]
        · refine .inl ⟨p.uid, ?_⟩
          simp [require_auth, hs, hc, hv]
    · refine .inr ⟨⟨"Missing token"⟩, ?_⟩
      simp [require_auth, hs]

/-- C1: For every inbound request to an auth-required route, the Auth Gate
(Express `authMiddleware` / Flask `require_auth`) extracts the bearer token
from the Authorization header; if the token is missing, malformed, badly
signed, or expired it responds 401 with an `{error: message}` body and the
wrapped handler is never invoked; if the token verifies, the decoded caller
identity is attached to the request context and the handler runs. -/
theorem auth_gate_contract :
    (∀ (sb : Option String) (h : ExpHeader) (now : Nat),
        (expExtractToken h = none →
          authMiddleware sb h now =
            .unauthorized ⟨"Authentication failed: No token provided."⟩)
      ∧ (∀ t, expExtractToken h = some t → sb = none →
          authMiddleware sb h now =
            .unauthorized ⟨"Authentication failed: Invalid token."⟩)
      ∧ (∀ t s e, expExtractToken h = some t → sb = some s →
          expVerify t s now = .error e →
          authMiddleware sb h now =
            .unauthorized ⟨"Authentication failed: Invalid token."⟩)
      ∧ (∀ t s p, expExtractToken h = some t → sb = some s →
          expVerify t s now = .ok p →
          authMiddleware sb h now = .proceed p)
      ∧ (∀ (R : Type) (handler : ExpPayload → R) (b : ErrBody),
          authMiddleware sb h now = .unauthorized b →
          expRoute sb h now handler = .inl (401, b))
      ∧ (∀ (R : Type) (handler : ExpPayload → R) (p : ExpPayload),
          authMiddleware sb h now = .proceed p →
          expRoute sb h now handler = .inr (handler p)))
  ∧ (∀ (secret : String) (h : FlHeader) (now : Nat),
        (∀ e, require_auth secret h now = .error e → e.1 = 401)
      ∧ (h = none →
          require_auth secret h now = .error (401, ⟨"Missing token"⟩))
      ∧ (∀ hdr tok err, h = some hdr → hdr.scheme = "Bearer" →
          hdr.cred = some tok → flVerify tok secret now = .error err →
          require_auth secret h now = .error (401, ⟨"Invalid token"⟩))
      ∧ (∀ hdr tok p, h = some hdr → hdr.scheme = "Bearer" →
          hdr.cred = some tok → flVerify tok secret now = .ok p →
          require_auth secret h now = .ok p.uid)
      ∧ (∀ (R : Type) (handler : Nat → R) (e : Nat × ErrBody),
          require_auth secret h now = .error e →
          flRoute secret h now handler = .inl e)
      ∧ (∀ (R : Type) (handler : Nat → R) (uid : Nat),
          require_auth secret h now = .ok uid →
          flRoute secret h now handler = .inr (handler uid))) := by
  constructor
  · intro sb h now
    refine ⟨?_, ?_, ?_, ?_, ?_, ?_⟩
    · intro hnone; simp [authMiddleware, hnone]
    · intro t ht hsb; simp [authMiddleware, ht, hsb]
    · intro t s e ht hsb hv; simp [authMiddleware, ht, hsb, hv]
    · intro t s p ht hsb hv; simp [authMiddleware, ht, hsb, hv]
    · intro R handler b hmw; simp [expRoute, hmw]
    · intro R handler p hmw; simp [expRoute, hmw]
  · intro secret h now
    refine ⟨?_, ?_, ?_, ?_, ?_, ?_⟩
    · intro e he
      rcases require_auth_cases secret h now with ⟨uid, hok⟩ | ⟨body, herr⟩
      · rw [hok] at he; exact Except.noConfusion he
      · rw [herr] at he
        injection he with h1
        rw [← h1]
    · intro hnone; simp [require_auth, hnone]
    · intro hdr tok err hh hs hc hv
      simp [require_auth, hh, hs, hc, hv]
    · intro hdr tok p hh hs hc hv
      simp [require_auth, hh, hs, hc, hv]
    · intro R handler e he; simp [flRoute, he]
    · intro R handler uid hok; simp [flRoute, hok]

/-- C1 witness: a concrete verifying request passes each gate with the decoded
identity. -/
theorem auth_gate_contract_witness :
    authMiddleware (some "k")
        (some ⟨"Bearer", some (.signed ⟨7, "a@x.com", 9999⟩ "k")⟩) 5 =
      .proceed ⟨7, "a@x.com", 9999⟩
    ∧ require_auth "s" (some ⟨"Bearer", some (.signed ⟨3, 50⟩ "s")⟩) 10 =
      .ok 3 :=
  ⟨(auth_gate_contract.1 (some "k")
      (some ⟨"Bearer", some (.signed ⟨7, "a@x.com", 9999⟩ "k")⟩) 5).2.2.2.1
      _ "k" _ rfl rfl rfl,
   (auth_gate_contract.2 "s"
      (some ⟨"Bearer", some (.signed ⟨3, 50⟩ "s")⟩) 10).2.2.2.1
      _ _ ⟨3, 50⟩ rfl rfl rfl rfl⟩

/-- C2: For every user id, verifying a token immediately after it is issued
for that id returns the id as subject; once the configured TTL has elapsed
(1 h for the Express signer, 8 h for the Flask signer) the same token yields
an Expired error.  For each backend the statement also ties the token actually
returned by a successful login to the signing function. -/
theorem token_ttl_roundtrip :
    (∀ (secret : String) (uid : Nat) (email : String) (now : Nat),
        expVerify (expSign uid email now secret) secret now =
          .ok ⟨uid, email, now + 3600⟩
      ∧ (∀ t, now + 3600 ≤ t →
          expVerify (expSign uid email now secret) secret t = .error .expired))
  ∧ (∀ (s : String) (st : EState) (e p : Option String) (now : Nat)
        (m : String) (tok : ExpJwt),
        expressLogin (some s) st e p now = .resp (.success m tok) →
        ∃ u, findByEmail st.users (e.getD "") = some u ∧
          tok = expSign u.id u.email now s ∧
          expVerify tok s now = .ok ⟨u.id, u.email, now + 3600⟩ ∧
          ∀ t, now + 3600 ≤ t → expVerify tok s t = .error .expired)
  ∧ (∀ (secret : String) (st : FState) (e p : String) (now : Nat)
        (tok : FlJwt) (pub : FUserPublic),
        flaskLogin secret st e p now = .ok tok pub →
          tok = flSign pub.id now secret ∧
          flVerify tok secret now = .ok ⟨pub.id, now + 28800⟩ ∧
          ∀ t, now + 28800 ≤ t → flVerify tok secret t = .error .expired) := by
  refine ⟨?_, ?_, ?_⟩
  · intro secret uid email now
    refine ⟨?_, ?_⟩
    · simp [expVerify, expSign]
    · intro t ht; simp [expVerify, expSign, ht]
  · intro s st e p now m tok hlog
    by_cases htr : (truthy e && truthy p) = true
    · simp only [expressLogin, htr, if_true] at hlog
      rcases hf : findByEmail st.users (e.getD "") with _ | u
      · simp [hf] at hlog
      · simp only [hf] at hlog
        by_cases hb : bcryptVerify (p.getD "") u.password = true
        · simp only [hb, if_true] at hlog
          obtain ⟨hm, rfl⟩ := hlog
          refine ⟨u, rfl, rfl, ?_, ?_⟩
          · simp [expVerify, expSign]
          · intro t ht; simp [expVerify, expSign, ht]
        · simp [hb] at hlog
    · simp [expressLogin, htr] at hlog
  · intro secret st e p now tok pub hlog
    rcases hf : st.users.find? (·.email == e) with _ | u
    · simp [flaskLogin, hf] at hlog
    · by_cases hb : bcryptVerify p u.password_hash = true
      · simp only [flaskLogin, hf, hb, if_true] at hlog
        obtain ⟨rfl, rfl⟩ := hlog
        refine ⟨rfl, ?_, ?_⟩
        · simp [flVerify, flSign]
        · intro t ht; simp [flVerify, flSign, ht]
      · simp [flaskLogin, hf, hb] at hlog

/-- C2 witness: a concrete token round-trips at issuance time and expires for
both signers once the TTL has elapsed, on a concrete login. -/
theorem token_ttl_roundtrip_witness :
    expVerify (expSign 7 "a@x.com" 100 "k") "k" 3700 = .error .expired
    ∧ (∃ u, findByEmail [EUser.mk 1 "a@x.com" (bcryptHash "pw") "ana" ""] "a@x.com" = some u ∧
        expSign 1 "a@x.com" 100 "k" = expSign u.id u.email 100 "k" ∧
        expVerify (expSign 1 "a@x.com" 100 "k") "k" 100 =
          .ok ⟨u.id, u.email, 3700⟩ ∧
        ∀ t, 3700 ≤ t →
          expVerify (expSign 1 "a@x.com" 100 "k") "k" t = .error .expired)
    ∧ (flSign 2 100 "s" = flSign 2 100 "s" ∧
        flVerify (flSign 2 100 "s") "s" 100 = .ok ⟨2, 28900⟩ ∧
        ∀ t, 28900 ≤ t → flVerify (flSign 2 100 "s") "s" t = .error .expired) :=
  ⟨(token_ttl_roundtrip.1 "k" 7 "a@x.com" 100).2 3700 (by omega),
   token_ttl_roundtrip.2.1 "k" ⟨[⟨1, "a@x.com", bcryptHash "pw", "ana", ""⟩], 2⟩
     (some "a@x.com") (some "pw") 100 "Login successful!"
     (expSign 1 "a@x.com" 100 "k") rfl,
   token_ttl_roundtrip.2.2 "s" ⟨[⟨2, "b@x.com", none, bcryptHash "q"⟩], [], [], [], 3, 1⟩
     "b@x.com" "q" 100 (flSign 2 100 "s") ⟨2, "b@x.com", none⟩ rfl⟩

/-- C3: Only the owning user token permits update or delete of a listing; any
other valid user gets the not-found shape (404 for update, zero affected rows
for delete) and the listing is left present and unchanged; an absent or
invalid token receives 401 before the handler runs. -/
theorem listing_owner_scope :
    (∀ (st : FState) (uid pid : Nat) (d : PData),
        ((∀ p ∈ st.products, p.id = pid → p.owner_id ≠ uid) →
          update_product st uid pid d = (st, .notFound ⟨"Not found"⟩)
          ∧ delete_product st uid pid = (st, .ok "Deleted"))
      ∧ (∀ p ∈ st.products, p.id = pid → p.owner_id = uid →
          (update_product st uid pid d).2 = .ok "Updated"
          ∧ applyUpdate d p ∈ (update_product st uid pid d).1.products
          ∧ p ∉ (delete_product st uid pid).1.products))
  ∧ (∀ (secret : String) (h : FlHeader) (now : Nat) (st : FState)
        (pid : Nat) (d : PData) (e : Nat × ErrBody),
        require_auth secret h now = .error e →
        e.1 = 401
        ∧ flRoute secret h now (fun uid => update_product st uid pid d) = .inl e
        ∧ flRoute secret h now (fun uid => delete_product st uid pid) = .inl e) := by
  constructor
  · intro st uid pid d
    constructor
    · intro hno
      have hfil : st.products.filter (matchesOwn pid uid) = [] := by
        rw [List.filter_eq_nil_iff]
        intro a ha
        simp only [matchesOwn, Bool.and_eq_true, beq_iff_eq, not_and]
        intro hid
        exact hno a ha hid
      have hself : st.products.filter (fun p => !(matchesOwn pid uid p)) = st.products := by
        rw [List.filter_eq_self]
        intro a ha
        simp only [Bool.not_eq_true', matchesOwn, Bool.and_eq_false_iff]
        by_cases hid : a.id = pid
        · right; simpa using hno a ha hid
        · left; simpa using hid
      constructor
      · simp [update_product, hfil]
      · simp only [delete_product, hself]
    · intro p hp hid hown
      have hmem : p ∈ st.products.filter (matchesOwn pid uid) :=
        List.mem_filter.mpr ⟨hp, by simp [matchesOwn, hid, hown]⟩
      have hlen : ¬(st.products.filter (matchesOwn pid uid)).length = 0 := by
        intro h0
        rw [List.length_eq_zero] at h0
        rw [h0] at hmem
        cases hmem
      refine ⟨?_, ?_, ?_⟩
      · simp [update_product, hlen]
      · have hfp : (fun q => if matchesOwn pid uid q then applyUpdate d q else q) p
            = applyUpdate d p := by
          simp [matchesOwn, hid, hown]
        have hmm := List.mem_map_of_mem
          (fun q => if matchesOwn pid uid q then applyUpdate d q else q) hp
        rw [hfp] at hmm
        simpa [update_product, hlen] using hmm
      · intro habs
        have := (List.mem_filter.mp habs).2
        simp [matchesOwn, hid, hown] at this
  · intro secret h now st pid d e he
    refine ⟨?_, ?_, ?_⟩
    · rcases require_auth_cases secret h now with ⟨uid, hok⟩ | ⟨body, herr⟩
      · rw [hok] at he; exact Except.noConfusion he
      · rw [herr] at he
        injection he with h1
        rw [← h1]
    · simp [flRoute, he]
    · simp [flRoute, he]

/-- A concrete Flask state holding one listing owned by user 1. -/
def stC3 : FState := ⟨[], [⟨1, "Lamp", none, "Home", 12, none, 1⟩], [], [], 1, 1⟩

/-- A concrete update body. -/
def dC3 : PData := ⟨"Lamp v2", none, "Home", 15, none⟩

/-- C3 witness: with a concrete listing owned by user 1, user 2 gets the
not-found shape and the row survives unchanged; user 1 can update it; a
tokenless request is rejected 401 before the handler runs. -/
theorem listing_owner_scope_witness :
    update_product stC3 2 1 dC3 = (stC3, .notFound ⟨"Not found"⟩)
    ∧ delete_product stC3 2 1 = (stC3, .ok "Deleted")
    ∧ (update_product stC3 1 1 dC3).2 = .ok "Updated"
    ∧ flRoute "s" none 0 (fun uid => update_product stC3 uid 1 dC3) =
        .inl (401, ⟨"Missing token"⟩) :=
  ⟨((listing_owner_scope.1 stC3 2 1 dC3).1 (by decide)).1,
   ((listing_owner_scope.1 stC3 2 1 dC3).1 (by decide)).2,
   ((listing_owner_scope.1 stC3 1 1 dC3).2 ⟨1, "Lamp", none, "Home", 12, none, 1⟩
      (by decide) rfl rfl).1,
   (listing_owner_scope.2 "s" none 0 stC3 1 dC3 (401, ⟨"Missing token"⟩) rfl).2.1⟩

/-- Serial insertion preserves the number of copied rows. -/
theorem ordersFrom_length (now : Nat) (cs : List FCartItem) :
    ∀ base, (ordersFrom base now cs).length = cs.length := by
  induction cs with
  | nil => intro base; rfl
  | cons c cs ih => intro base; simp [ordersFrom, ih]

/-- Every order copied from rows of one user belongs to that user. -/
theorem ordersFrom_filter_user (now uid : Nat) (cs : List FCartItem)
    (h : ∀ c ∈ cs, c.user_id = uid) :
    ∀ base, (ordersFrom base now cs).filter (fun o => o.user_id == uid)
      = ordersFrom base now cs := by
  induction cs with
  | nil => intro base; rfl
  | cons c cs ih =>
    intro base
    have hc : c.user_id = uid := h c (by simp)
    simp only [ordersFrom, List.filter_cons]
    simp [hc, ih (fun x hx => h x (by simp [hx]))]

/-- Deleting the rows of a user leaves no row of that user behind. -/
theorem filter_user_of_removed (uid : Nat) (l : List FCartItem) :
    (l.filter (fun c => !(c.user_id == uid))).filter (fun c => c.user_id == uid)
      = [] := by
  rw [List.filter_eq_nil_iff]
  intro a ha
  have h2 := (List.mem_filter.mp ha).2
  simp only [Bool.not_eq_true', beq_eq_false_iff_ne, ne_eq] at h2
  simp [h2]

/-- C4: checkout is atomic: for an authenticated caller with a non-empty
cart, a successful checkout empties the cart and grows the order count by
exactly the pre-checkout cart row count, and a datastore failure at either
statement rolls the transaction back, leaving the state untouched. -/
theorem checkout_atomic :
    ∀ (st : FState) (uid now : Nat) (fail : Option TxFail),
      0 < cartCount st uid →
      (fail = none →
        cartCount (checkout st uid now fail).1 uid = 0
        ∧ orderCount (checkout st uid now fail).1 uid
            = orderCount st uid + cartCount st uid
        ∧ (checkout st uid now fail).2 = .ok "Order placed")
      ∧ (∀ tf, fail = some tf →
        (checkout st uid now fail).1 = st
        ∧ (checkout st uid now fail).2 = .serverError) := by
  intro st uid now fail hne
  constructor
  · rintro rfl
    refine ⟨?_, ?_, rfl⟩
    · simp only [checkout, cartCount]
      exact congrArg List.length (filter_user_of_removed uid st.cart_items)
    · simp only [checkout, orderCount, cartCount]
      rw [List.filter_append, List.length_append]
      congr 1
      rw [ordersFrom_filter_user now uid _
            (fun c hc => by simpa using (List.mem_filter.mp hc).2)]
      exact ordersFrom_length now _ _
  · rintro tf rfl
    exact ⟨rfl, rfl⟩

/-- A concrete Flask state with one cart row for user 5. -/
def stC4 : FState := ⟨[], [], [⟨1, 5, 9, 1⟩], [], 1, 1⟩

/-- C4 witness: on a concrete one-item cart, a successful checkout empties
the cart and adds one order; an injected failure leaves the state equal to
the initial one. -/
theorem checkout_atomic_witness :
    (cartCount (checkout stC4 5 0 none).1 5 = 0
      ∧ orderCount (checkout stC4 5 0 none).1 5
          = orderCount stC4 5 + cartCount stC4 5
      ∧ (checkout stC4 5 0 none).2 = .ok "Order placed")
    ∧ ((checkout stC4 5 0 (some .atDeleteCart)).1 = stC4
      ∧ (checkout stC4 5 0 (some .atDeleteCart)).2 = .serverError) :=
  ⟨(checkout_atomic stC4 5 0 none (by decide)).1 rfl,
   (checkout_atomic stC4 5 0 (some .atDeleteCart) (by decide)).2 .atDeleteCart rfl⟩

/-- C5: For every valid signup with an unregistered email, a subsequent login
with the same credentials is meant to succeed with a token whose verified
subject is the new user id.  The Flask backend satisfies this end to end.
The Express backend creates the user but its login handler evaluates the
unbound identifier `JWT_SECRET` on the success path, throwing a
ReferenceError instead of returning a token. -/
theorem signup_login_roundtrip :
    (∀ (secret : String) (st : FState) (e p : String) (un : Option String)
        (now : Nat),
        e ≠ "" → p ≠ "" →
        st.users.find? (·.email == e) = none →
        (flaskSignup st (some e) (some p) un).2 = .ok "User created" st.nextUserId
        ∧ flaskLogin secret (flaskSignup st (some e) (some p) un).1 e p now =
            .ok (flSign st.nextUserId now secret) ⟨st.nextUserId, e, un⟩
        ∧ flVerify (flSign st.nextUserId now secret) secret now =
            .ok ⟨st.nextUserId, now + 28800⟩)
  ∧ (∀ (st : EState) (e p u : String) (now : Nat),
        e ≠ "" → p ≠ "" → u ≠ "" →
        findByEmail st.users e = none →
        (expressRegister st (some e) (some p) (some u)).2 =
          .created "Registration successful!"
        ∧ expressLogin expressSecretBinding
            (expressRegister st (some e) (some p) (some u)).1
            (some e) (some p) now = .thrown (.referenceError "JWT_SECRET")) := by
  constructor
  · intro secret st e p un now he hp hfresh
    have hsign : flaskSignup st (some e) (some p) un =
        ({ st with
            users := st.users ++ [⟨st.nextUserId, e, un, bcryptHash p⟩],
            nextUserId := st.nextUserId + 1 },
         .ok "User created" st.nextUserId) := by
      simp [flaskSignup, truthy, he, hp, hfresh]
    refine ⟨by rw [hsign], ?_, by simp [flVerify, flSign]⟩
    rw [hsign]
    have hfind : ({ st with
          users := st.users ++ [⟨st.nextUserId, e, un, bcryptHash p⟩],
          nextUserId := st.nextUserId + 1 } : FState).users.find? (·.email == e)
        = some ⟨st.nextUserId, e, un, bcryptHash p⟩ := by
      show (st.users ++ [FUser.mk st.nextUserId e un (bcryptHash p)]).find?
          (fun x => x.email == e) = some (FUser.mk st.nextUserId e un (bcryptHash p))
      rw [List.find?_append, hfresh]
      simp
    simp [flaskLogin, hfind, bcryptVerify]
  · intro st e p u now he hp hu hfresh
    have hreg : expressRegister st (some e) (some p) (some u) =
        ({ users := st.users ++ [⟨st.nextUserId, e, bcryptHash p, u, ""⟩],
           nextUserId := st.nextUserId + 1 }, .created "Registration successful!") := by
      simp [expressRegister, truthy, he, hp, hu, hfresh]
    refine ⟨by rw [hreg], ?_⟩
    rw [hreg]
    have hfind : findByEmail (st.users ++ [⟨st.nextUserId, e, bcryptHash p, u, ""⟩]) e
        = some ⟨st.nextUserId, e, bcryptHash p, u, ""⟩ := by
      unfold findByEmail at hfresh ⊢
      rw [List.find?_append, hfresh]
      simp
    simp [expressLogin, truthy, he, hp, hfind, bcryptVerify, expressSecretBinding]

/-- C5 witness: concrete signup then login on both backends: Flask returns a
verifiable token for the created id 1; Express register succeeds and the
login with the same correct credentials throws the ReferenceError. -/
theorem signup_login_roundtrip_witness :
    ((flaskSignup ⟨[], [], [], [], 1, 1⟩ (some "a@x.com") (some "secret1")
        (some "ana")).2 = .ok "User created" 1
      ∧ flaskLogin "s"
          (flaskSignup ⟨[], [], [], [], 1, 1⟩ (some "a@x.com") (some "secret1")
            (some "ana")).1 "a@x.com" "secret1" 100 =
          .ok (flSign 1 100 "s") ⟨1, "a@x.com", some "ana"⟩
      ∧ flVerify (flSign 1 100 "s") "s" 100 = .ok ⟨1, 28900⟩)
    ∧ ((expressRegister ⟨[], 1⟩ (some "a@x.com") (some "secret1")
          (some "ana")).2 = .created "Registration successful!"
      ∧ expressLogin expressSecretBinding
          (expressRegister ⟨[], 1⟩ (some "a@x.com") (some "secret1")
            (some "ana")).1
          (some "a@x.com") (some "secret1") 100 =
          .thrown (.referenceError "JWT_SECRET")) :=
  ⟨signup_login_roundtrip.1 "s" ⟨[], [], [], [], 1, 1⟩ "a@x.com" "secret1"
      (some "ana") 100 (by decide) (by decide) rfl,
   signup_login_roundtrip.2 ⟨[], 1⟩ "a@x.com" "secret1" "ana" 100
      (by decide) (by decide) (by decide) rfl⟩

/-- A bcrypt hash is a tagged string, never the bare plaintext it encodes. -/
theorem bcryptHash_ne_plain (p : String) : bcryptHash p ≠ p := by
  intro h
  have hl := congrArg String.length h
  rw [bcryptHash, String.length_append] at hl
  have h7 : ("$2b$10$" : String).length = 7 := rfl
  rw [h7] at hl
  omega

/-- After `delete user.password`, the serialised user object keys are exactly
the remaining four columns. -/
theorem expUserFields_no_password (v : EUser) :
    ((expUserRowFields v).filter (fun kv => kv.1 ≠ "password")).map Prod.fst
      = ["id", "email", "username", "member_since"] := rfl

/-- C6: for every API operation and reachable state, the stored password hash
is never equal to the plaintext it was derived from, and no response body
carries a password-hash field: both signup paths store only the tagged hash,
the Express user read strips the `password` key before serialising, and every
fixed response shape of both backends lacks `password`/`password_hash`. -/
theorem password_hash_privacy :
    (∀ plain : String, bcryptHash plain ≠ plain)
  ∧ (∀ (st : EState) (e p u : Option String) (st2 : EState) (m : String),
        expressRegister st e p u = (st2, .created m) →
        ∃ nu ∈ st2.users, nu.email = e.getD ""
          ∧ nu.password = bcryptHash (p.getD "") ∧ nu.password ≠ p.getD "")
  ∧ (∀ (st : FState) (e p u : Option String) (st2 : FState) (m : String) (uid : Nat),
        flaskSignup st e p u = (st2, .ok m uid) →
        ∃ nu ∈ st2.users, nu.id = uid
          ∧ nu.password_hash = bcryptHash (p.getD "") ∧ nu.password_hash ≠ p.getD "")
  ∧ (∀ v : EUser,
        ((expUserRowFields v).filter (fun kv => kv.1 ≠ "password")).map Prod.fst
          = ["id", "email", "username", "member_since"])
  ∧ (∀ (st : EState) (cid : Nat) (param : String) (fs : List (String × String)),
        expressGetUser st cid param = .ok fs → "password" ∉ fs.map Prod.fst)
  ∧ (∀ ks ∈ staticResponseKeys, "password" ∉ ks ∧ "password_hash" ∉ ks) := by
  refine ⟨bcryptHash_ne_plain, ?_, ?_, expUserFields_no_password, ?_, by decide⟩
  · intro st e p u st2 m hreg
    unfold expressRegister at hreg
    dsimp only at hreg
    split at hreg
    · split at hreg
      · simp at hreg
      · injection hreg with h1 h2
        subst h1
        exact ⟨⟨st.nextUserId, e.getD "", bcryptHash (p.getD ""), u.getD "", ""⟩,
          by simp, rfl, rfl, bcryptHash_ne_plain _⟩
    · simp at hreg
  · intro st e p u st2 m uid hsig
    unfold flaskSignup at hsig
    dsimp only at hsig
    split at hsig
    · split at hsig
      · simp at hsig
      · injection hsig with h1 h2
        subst h1
        injection h2 with hm huid
        exact ⟨⟨st.nextUserId, e.getD "", u, bcryptHash (p.getD "")⟩,
          by simp, huid, rfl, bcryptHash_ne_plain _⟩
    · simp at hsig
  · intro st cid param fs hget
    unfold expressGetUser at hget
    split at hget
    · simp at hget
    · split at hget
      · simp at hget
      · injection hget with h1
        subst h1
        rw [expUserFields_no_password]
        decide

/-- C6 witness: the concrete hash of "secret1" differs from its plaintext, a
concrete Express registration stores only the tagged hash, and a concrete
fixed response shape has no hash key. -/
theorem password_hash_privacy_witness :
    bcryptHash "secret1" ≠ "secret1"
    ∧ (∃ nu ∈ (expressRegister ⟨[], 1⟩ (some "a@x.com") (some "pw")
          (some "ana")).1.users,
        nu.email = "a@x.com" ∧ nu.password = bcryptHash "pw" ∧ nu.password ≠ "pw")
    ∧ ("password" ∉ ["message", "token"] ∧ "password_hash" ∉ ["message", "token"]) :=
  ⟨password_hash_privacy.1 "secret1",
   password_hash_privacy.2.1 ⟨[], 1⟩ (some "a@x.com") (some "pw") (some "ana")
     (expressRegister ⟨[], 1⟩ (some "a@x.com") (some "pw") (some "ana")).1
     "Registration successful!" rfl,
   password_hash_privacy.2.2.2.2.2 ["message", "token"] (by decide)⟩

/-- C7 counterexample: the Flask signup route returns 200 (Flask default, not
201) for a concrete well-formed unregistered signup, and 400 (psycopg2 error,
not 409) for a concrete duplicate email, refuting the claimed 201/409 for the
signup operation. -/
theorem signup_status_cex :
    fSignupStatus (flaskSignup ⟨[], [], [], [], 1, 1⟩ (some "a@x.com")
      (some "secret1") (some "ana")).2 = 200
    ∧ (200 : Nat) ≠ 201
    ∧ fSignupStatus (flaskSignup
        (flaskSignup ⟨[], [], [], [], 1, 1⟩ (some "a@x.com") (some "secret1")
          (some "ana")).1
        (some "a@x.com") (some "other") (some "bob")).2 = 400
    ∧ (400 : Nat) ≠ 409 := by
  refine ⟨rfl, by decide, rfl, by decide⟩

/-- C7 (amended): the Express register route returns 201 for a well-formed
unregistered signup, 409 for a duplicate email and 400 for missing fields;
the Flask signup route instead returns 200 on success and 400 both for a
duplicate email and for a missing email or password (username is optional
there). -/
theorem signup_status_amended :
    (∀ (st : EState) (e p u : Option String),
        ((truthy e && truthy p && truthy u) = true →
          ((findByEmail st.users (e.getD "")).isSome = false →
            regStatus (expressRegister st e p u).2 = 201)
          ∧ ((findByEmail st.users (e.getD "")).isSome = true →
            regStatus (expressRegister st e p u).2 = 409))
      ∧ ((truthy e && truthy p && truthy u) = false →
          regStatus (expressRegister st e p u).2 = 400))
  ∧ (∀ (st : FState) (e p u : Option String),
        ((truthy e && truthy p) = true →
          ((st.users.find? (fun x => x.email == e.getD "")).isSome = false →
            fSignupStatus (flaskSignup st e p u).2 = 200)
          ∧ ((st.users.find? (fun x => x.email == e.getD "")).isSome = true →
            fSignupStatus (flaskSignup st e p u).2 = 400))
      ∧ ((truthy e && truthy p) = false →
          fSignupStatus (flaskSignup st e p u).2 = 400)) := by
  constructor
  · intro st e p u
    constructor
    · intro htr
      constructor
      · intro hdup
        simp [expressRegister, htr, hdup, regStatus]
      · intro hdup
        simp [expressRegister, htr, hdup, regStatus]
    · intro htr
      simp [expressRegister, htr, regStatus]
  · intro st e p u
    constructor
    · intro htr
      constructor
      · intro hdup
        simp [flaskSignup, htr, hdup, fSignupStatus]
      · intro hdup
        simp [flaskSignup, htr, hdup, fSignupStatus]
    · intro htr
      simp [flaskSignup, htr, fSignupStatus]

/-- C7 witness: concrete instances of each amended status: Express 201, 409
and 400; Flask 200, 400 (duplicate) and 400 (missing password). -/
theorem signup_status_amended_witness :
    regStatus (expressRegister ⟨[], 1⟩ (some "a@x.com") (some "pw")
      (some "ana")).2 = 201
    ∧ regStatus (expressRegister ⟨[⟨1, "a@x.com", "h", "ana", ""⟩], 2⟩
        (some "a@x.com") (some "pw") (some "bob")).2 = 409
    ∧ regStatus (expressRegister ⟨[], 1⟩ (some "a@x.com") none
        (some "ana")).2 = 400
    ∧ fSignupStatus (flaskSignup ⟨[], [], [], [], 1, 1⟩ (some "b@x.com")
        (some "pw") none).2 = 200
    ∧ fSignupStatus (flaskSignup ⟨[⟨1, "b@x.com", none, "h"⟩], [], [], [], 2, 1⟩
        (some "b@x.com") (some "pw") none).2 = 400
    ∧ fSignupStatus (flaskSignup ⟨[], [], [], [], 1, 1⟩ (some "b@x.com")
        none none).2 = 400 :=
  ⟨((signup_status_amended.1 ⟨[], 1⟩ (some "a@x.com") (some "pw")
      (some "ana")).1 rfl).1 rfl,
   ((signup_status_amended.1 ⟨[⟨1, "a@x.com", "h", "ana", ""⟩], 2⟩
      (some "a@x.com") (some "pw") (some "bob")).1 rfl).2 rfl,
   (signup_status_amended.1 ⟨[], 1⟩ (some "a@x.com") none (some "ana")).2 rfl,
   ((signup_status_amended.2 ⟨[], [], [], [], 1, 1⟩ (some "b@x.com")
      (some "pw") none).1 rfl).1 rfl,
   ((signup_status_amended.2 ⟨[⟨1, "b@x.com", none, "h"⟩], [], [], [], 2, 1⟩
      (some "b@x.com") (some "pw") none).1 rfl).2 rfl,
   (signup_status_amended.2 ⟨[], [], [], [], 1, 1⟩ (some "b@x.com")
      none none).2 rfl⟩

/-- C8: a failed login is indistinguishable in shape between "no user with
this email" and "wrong password": both backends answer the same 401 body in
both cases, and password verification is a total Boolean check that succeeds
only on the matching stored hash (it never throws). -/
theorem login_failure_indistinguishable :
    (∀ (sb : Option String) (st : EState) (e p : Option String) (now : Nat),
        (truthy e && truthy p) = true →
        (findByEmail st.users (e.getD "") = none →
          expressLogin sb st e p now =
            .resp (.unauthorized ⟨"Invalid credentials."⟩))
        ∧ (∀ v, findByEmail st.users (e.getD "") = some v →
            bcryptVerify (p.getD "") v.password = false →
            expressLogin sb st e p now =
              .resp (.unauthorized ⟨"Invalid credentials."⟩)))
  ∧ (∀ (secret : String) (st : FState) (e p : String) (now : Nat),
        (st.users.find? (fun x => x.email == e) = none →
          flaskLogin secret st e p now = .unauthorized ⟨"Invalid credentials"⟩)
        ∧ (∀ v, st.users.find? (fun x => x.email == e) = some v →
            bcryptVerify p v.password_hash = false →
            flaskLogin secret st e p now = .unauthorized ⟨"Invalid credentials"⟩))
  ∧ (∀ p h : String, bcryptVerify p h = true ↔ h = bcryptHash p) := by
  refine ⟨?_, ?_, ?_⟩
  · intro sb st e p now htr
    constructor
    · intro hnone
      simp [expressLogin, htr, hnone]
    · intro v hfind hbad
      simp [expressLogin, htr, hfind, hbad]
  · intro secret st e p now
    constructor
    · intro hnone
      simp [flaskLogin, hnone]
    · intro v hfind hbad
      simp [flaskLogin, hfind, hbad]
  · intro p h
    simp [bcryptVerify]

/-- C8 witness: on a concrete one-user store, the unknown-email failure and
the wrong-password failure produce the identical 401 response, on both
backends. -/
theorem login_failure_indistinguishable_witness :
    expressLogin none ⟨[⟨1, "a@x.com", bcryptHash "pw", "ana", ""⟩], 2⟩
      (some "nobody@x.com") (some "pw") 0 =
      .resp (.unauthorized ⟨"Invalid credentials."⟩)
    ∧ expressLogin none ⟨[⟨1, "a@x.com", bcryptHash "pw", "ana", ""⟩], 2⟩
      (some "a@x.com") (some "wrong") 0 =
      .resp (.unauthorized ⟨"Invalid credentials."⟩)
    ∧ flaskLogin "s" ⟨[⟨1, "a@x.com", none, bcryptHash "pw"⟩], [], [], [], 2, 1⟩
      "nobody@x.com" "pw" 0 = .unauthorized ⟨"Invalid credentials"⟩
    ∧ flaskLogin "s" ⟨[⟨1, "a@x.com", none, bcryptHash "pw"⟩], [], [], [], 2, 1⟩
      "a@x.com" "wrong" 0 = .unauthorized ⟨"Invalid credentials"⟩ :=
  ⟨(login_failure_indistinguishable.1 none
      ⟨[⟨1, "a@x.com", bcryptHash "pw", "ana", ""⟩], 2⟩
      (some "nobody@x.com") (some "pw") 0 rfl).1 (by decide),
   (login_failure_indistinguishable.1 none
      ⟨[⟨1, "a@x.com", bcryptHash "pw", "ana", ""⟩], 2⟩
      (some "a@x.com") (some "wrong") 0 rfl).2
      ⟨1, "a@x.com", bcryptHash "pw", "ana", ""⟩ (by decide) (by decide),
   (login_failure_indistinguishable.2.1 "s"
      ⟨[⟨1, "a@x.com", none, bcryptHash "pw"⟩], [], [], [], 2, 1⟩
      "nobody@x.com" "pw" 0).1 (by decide),
   (login_failure_indistinguishable.2.1 "s"
      ⟨[⟨1, "a@x.com", none, bcryptHash "pw"⟩], [], [], [], 2, 1⟩
      "a@x.com" "wrong" 0).2
      ⟨1, "a@x.com", none, bcryptHash "pw"⟩ (by decide) (by decide)⟩

/-- C9: the identifier `JWT_SECRET` used by the Express login signer and by
`authMiddleware` is never defined in the JavaScript program.  Consequently
every request bearing any token is rejected 401 (the ReferenceError thrown by
the verification step is caught), no request ever reaches a wrapped handler,
a login with correct credentials throws an uncaught ReferenceError instead of
responding, and no Express login ever returns a success response. -/
theorem express_jwt_secret_unbound :
    expressSecretBinding = none
  ∧ (∀ (h : ExpHeader) (now : Nat) (t : ExpJwt),
        expExtractToken h = some t →
        authMiddleware expressSecretBinding h now =
          .unauthorized ⟨"Authentication failed: Invalid token."⟩)
  ∧ (∀ (h : ExpHeader) (now : Nat) (p : ExpPayload),
        authMiddleware expressSecretBinding h now ≠ .proceed p)
  ∧ (∀ (st : EState) (e p : Option String) (now : Nat) (v : EUser),
        (truthy e && truthy p) = true →
        findByEmail st.users (e.getD "") = some v →
        bcryptVerify (p.getD "") v.password = true →
        expressLogin expressSecretBinding st e p now =
          .thrown (.referenceError "JWT_SECRET"))
  ∧ (∀ (st : EState) (e p : Option String) (now : Nat) (m : String)
        (tok : ExpJwt),
        expressLogin expressSecretBinding st e p now ≠
          .resp (.success m tok)) := by
  refine ⟨rfl, ?_, ?_, ?_, ?_⟩
  · intro h now t ht
    simp [authMiddleware, ht, expressSecretBinding]
  · intro h now p hab
    rcases ht : expExtractToken h with _ | t
    · simp [authMiddleware, ht] at hab
    · simp [authMiddleware, ht, expressSecretBinding] at hab
  · intro st e p now v htr hfind hok
    simp [expressLogin, htr, hfind, hok, expressSecretBinding]
  · intro st e p now m tok hab
    by_cases htr : (truthy e && truthy p) = true
    · rcases hfind : findByEmail st.users (e.getD "") with _ | v
      · simp [expressLogin, htr, hfind] at hab
      · by_cases hb : bcryptVerify (p.getD "") v.password = true
        · simp [expressLogin, htr, hfind, hb, expressSecretBinding] at hab
        · simp [expressLogin, htr, hfind, hb] at hab
    · simp [expressLogin, htr] at hab

/-- C9 witness: a concrete well-signed token is still rejected 401 under the
unbound secret, and the concrete correct-credential login throws. -/
theorem express_jwt_secret_unbound_witness :
    authMiddleware expressSecretBinding
      (some ⟨"Bearer", some (.signed ⟨1, "a@x.com", 9999⟩ "any")⟩) 0 =
      .unauthorized ⟨"Authentication failed: Invalid token."⟩
    ∧ expressLogin expressSecretBinding
        ⟨[⟨1, "a@x.com", bcryptHash "pw", "ana", ""⟩], 2⟩
        (some "a@x.com") (some "pw") 0 = .thrown (.referenceError "JWT_SECRET") :=
  ⟨express_jwt_secret_unbound.2.1
      (some ⟨"Bearer", some (.signed ⟨1, "a@x.com", 9999⟩ "any")⟩) 0
      (.signed ⟨1, "a@x.com", 9999⟩ "any") rfl,
   express_jwt_secret_unbound.2.2.2.1
      ⟨[⟨1, "a@x.com", bcryptHash "pw", "ana", ""⟩], 2⟩
      (some "a@x.com") (some "pw") 0
      ⟨1, "a@x.com", bcryptHash "pw", "ana", ""⟩ rfl (by decide) (by decide)⟩

/-- Two concrete Express product rows used for the products-query claim. -/
def psC10 : List EProduct :=
  [⟨1, "abc", "", "Home", 5, "", 1⟩, ⟨2, "xy", "", "Home", 5, "", 2⟩]

/-- C10 counterexample: with the `user_id` parameter present but equal to the
empty string (e.g. `?user_id=&q=x`), JavaScript truthiness skips the
`user_id` branch and the title-search filter is applied after all: the result
depends on `q`, refuting "when user_id is present the title-search filter is
ignored entirely". -/
theorem products_query_cex :
    getProductsQuery psC10 (some "") (some "x") ≠
      getProductsQuery psC10 (some "") none := by decide

/-- C10 (amended): when `user_id` is present with a non-empty value it takes
strict precedence: the result is the owner filter alone and is independent of
`q`; when `user_id` is absent or empty and `q` is present and non-empty the
title filter is applied; when both parameters are absent or empty every row
is returned; and the result is always exactly one of owner-filtered,
title-filtered, or the whole table — the two filters are never combined. -/
theorem products_query_amended :
    (∀ (ps : List EProduct) (uid q : Option String),
        truthy uid = true →
        getProductsQuery ps uid q =
          ps.filter (fun p => toString p.user_id == uid.getD "")
        ∧ ∀ q2, getProductsQuery ps uid q = getProductsQuery ps uid q2)
  ∧ (∀ (ps : List EProduct) (uid q : Option String),
        truthy uid = false → truthy q = true →
        getProductsQuery ps uid q =
          ps.filter (fun p => likeContains p.title (q.getD "")))
  ∧ (∀ (ps : List EProduct) (uid q : Option String),
        truthy uid = false → truthy q = false →
        getProductsQuery ps uid q = ps)
  ∧ (∀ (ps : List EProduct) (uid q : Option String),
        getProductsQuery ps uid q =
            ps.filter (fun p => toString p.user_id == uid.getD "")
        ∨ getProductsQuery ps uid q =
            ps.filter (fun p => likeContains p.title (q.getD ""))
        ∨ getProductsQuery ps uid q = ps) := by
  refine ⟨?_, ?_, ?_, ?_⟩
  · intro ps uid q htr
    constructor
    · simp [getProductsQuery, htr]
    · intro q2
      simp [getProductsQuery, htr]
  · intro ps uid q hu hq
    simp [getProductsQuery, hu, hq]
  · intro ps uid q hu hq
    simp [getProductsQuery, hu, hq]
  · intro ps uid q
    by_cases hu : truthy uid = true
    · exact .inl (by simp [getProductsQuery, hu])
    · by_cases hq : truthy q = true
      · refine .inr (.inl ?_)
        simp only [Bool.not_eq_true] at hu
        simp [getProductsQuery, hu, hq]
      · refine .inr (.inr ?_)
        simp only [Bool.not_eq_true] at hu hq
        simp [getProductsQuery, hu, hq]

/-- C10 witness: a concrete non-empty `user_id` keeps only owner 1 rows
whatever `q` says, an empty `user_id` with `q` = "x" applies the title
filter (keeping only the row whose title contains "x"), and the no-parameter
query returns every row. -/
theorem products_query_amended_witness :
    getProductsQuery psC10 (some "1") (some "x") =
      [⟨1, "abc", "", "Home", 5, "", 1⟩]
    ∧ getProductsQuery psC10 (some "1") (some "x") =
        getProductsQuery psC10 (some "1") none
    ∧ getProductsQuery psC10 (some "") (some "x") =
        [⟨2, "xy", "", "Home", 5, "", 2⟩]
    ∧ getProductsQuery psC10 none none = psC10 :=
  ⟨by
    have h := (products_query_amended.1 psC10 (some "1") (some "x") rfl).1
    rw [h]; rfl,
   (products_query_amended.1 psC10 (some "1") (some "x") rfl).2 none,
   by
    have h := products_query_amended.2.1 psC10 (some "") (some "x") rfl rfl
    rw [h]; rfl,
   products_query_amended.2.2.1 psC10 none none rfl rfl⟩

end EcoFinds
